import Mathlib

/-!
Verification of the evohome HGI80 listener message processor.

The Go source is shallowly embedded: strings are lists of characters,
the zone-state map is a function from zone id to an optional zone record,
floating point temperature arithmetic (integer centi-degrees divided by
100, with all constants and comparisons exactly representable) is carried
out in the rationals, and every Go slice expression that can panic is
modelled through an explicit bounds-checked slice returning an Option.
A processor returning none models a Go runtime panic.
-/

/-- Strings are modelled as lists of characters (the lines are ASCII,
so byte indexing in Go agrees with character indexing here). -/
abbrev Str := List Char

/-- Character of a string at an index; out-of-range positions yield the
NUL character, which belongs to none of the character classes the
validity regex tests, so a short string fails every positional test. -/
def chAt (s : Str) (i : Nat) : Char := (s.get? i).getD (Char.ofNat 0)

/-- Decimal digit test, mirroring the regex class \d on ASCII. -/
def isDigitCh (c : Char) : Bool := decide ('0' ≤ c) && decide (c ≤ '9')

/-- Hex digit test, mirroring the regex class [0-9a-fA-F]. -/
def isHexCh (c : Char) : Bool :=
  isDigitCh c || (decide ('a' ≤ c) && decide (c ≤ 'f')) || (decide ('A' ≤ c) && decide (c ≤ 'F'))

/-- Test for the address alternative of the validity regex at position i:
either the null address "--:------ " or a device address
\d{2}:\d{6} followed by a space (both alternatives are 10 characters
wide, so the positional encoding is exact). -/
def isAddrAt (s : Str) (i : Nat) : Bool :=
  (chAt s i == '-' && chAt s (i+1) == '-' && chAt s (i+2) == ':'
    && chAt s (i+3) == '-' && chAt s (i+4) == '-' && chAt s (i+5) == '-'
    && chAt s (i+6) == '-' && chAt s (i+7) == '-' && chAt s (i+8) == '-'
    && chAt s (i+9) == ' ')
  ||
  (isDigitCh (chAt s i) && isDigitCh (chAt s (i+1)) && chAt s (i+2) == ':'
    && isDigitCh (chAt s (i+3)) && isDigitCh (chAt s (i+4)) && isDigitCh (chAt s (i+5))
    && isDigitCh (chAt s (i+6)) && isDigitCh (chAt s (i+7)) && isDigitCh (chAt s (i+8))
    && chAt s (i+9) == ' ')

/-- Test for the message-type alternative ( I| W|RQ|RP) at positions i, i+1. -/
def isMsgTypeAt (s : Str) (i : Nat) : Bool :=
  (chAt s i == ' ' && chAt s (i+1) == 'I')
  || (chAt s i == ' ' && chAt s (i+1) == 'W')
  || (chAt s i == 'R' && chAt s (i+1) == 'Q')
  || (chAt s i == 'R' && chAt s (i+1) == 'P')

/-- IsValidMessage from messageProcessor.go: the anchored Go regular
expression
^\d{3} ( I| W|RQ|RP) --- \d{2}:\d{6} (--:------ |\d{2}:\d{6} ){2}[0-9a-fA-F]{4} \d{3}
transcribed position by position (all alternations are fixed width, so
the anchored regex is equivalent to this conjunction of positional
character-class tests; there is no end anchor, so any suffix may follow). -/
def isValidMessage (s : Str) : Bool :=
  isDigitCh (chAt s 0) && isDigitCh (chAt s 1) && isDigitCh (chAt s 2)
  && chAt s 3 == ' '
  && isMsgTypeAt s 4
  && chAt s 6 == ' '
  && chAt s 7 == '-' && chAt s 8 == '-' && chAt s 9 == '-'
  && chAt s 10 == ' '
  && isDigitCh (chAt s 11) && isDigitCh (chAt s 12) && chAt s 13 == ':'
  && isDigitCh (chAt s 14) && isDigitCh (chAt s 15) && isDigitCh (chAt s 16)
  && isDigitCh (chAt s 17) && isDigitCh (chAt s 18) && isDigitCh (chAt s 19)
  && chAt s 20 == ' '
  && isAddrAt s 21
  && isAddrAt s 31
  && isHexCh (chAt s 41) && isHexCh (chAt s 42) && isHexCh (chAt s 43) && isHexCh (chAt s 44)
  && chAt s 45 == ' '
  && isDigitCh (chAt s 46) && isDigitCh (chAt s 47) && isDigitCh (chAt s 48)

/-- Bounds-checked slice s[a:b], mirroring the panicking Go slice
expression: defined exactly when a ≤ b and b ≤ len(s). -/
def slice? (s : Str) (a b : Nat) : Option Str :=
  if a ≤ b ∧ b ≤ s.length then some ((s.drop a).take (b - a)) else none

/-- Value of a hex digit character, if it is one. -/
def hexDigit? (c : Char) : Option Nat :=
  if '0' ≤ c ∧ c ≤ '9' then some (c.toNat - '0'.toNat)
  else if 'a' ≤ c ∧ c ≤ 'f' then some (c.toNat - 'a'.toNat + 10)
  else if 'A' ≤ c ∧ c ≤ 'F' then some (c.toNat - 'A'.toNat + 10)
  else none

/-- Value of a decimal digit character, if it is one. -/
def decDigit? (c : Char) : Option Nat :=
  if '0' ≤ c ∧ c ≤ '9' then some (c.toNat - '0'.toNat) else none

/-- Accumulate digits of the given base; none on an empty digit string or
an invalid character. -/
def parseDigits (digit? : Char → Option Nat) (base : Nat) : Str → Option Nat
  | [] => none
  | cs => cs.foldl (fun acc c => do let a ← acc; let d ← digit? c; pure (a * base + d)) (some 0)

/-- strconv.ParseInt with an explicit base: optional leading sign, then at
least one digit of the base; none models a returned error (the Go call
sites ignore the error, in which case the value defaults to 0).  The
slices parsed in this program are at most four digits wide, so the
64-bit range check of ParseInt can never fire and is not modelled. -/
def parseInt (digit? : Char → Option Nat) (base : Nat) (s : Str) : Option Int :=
  match s with
  | '-' :: rest => (parseDigits digit? base rest).map (fun n => -(n : Int))
  | '+' :: rest => (parseDigits digit? base rest).map (fun n => (n : Int))
  | _ => (parseDigits digit? base s).map (fun n => (n : Int))

/-- strconv.ParseInt(s, 16, 64) with the error ignored: 0 on failure. -/
def parseHexD0 (s : Str) : Int := (parseInt hexDigit? 16 s).getD 0

/-- strconv.ParseInt(s, 10, 64) as an Option. -/
def parseDec (s : Str) : Option Int := parseInt decDigit? 10 s

/-- strings.TrimSpace restricted to the ASCII whitespace that can occur
in these lines. -/
def trimSpace (s : Str) : Str :=
  ((s.dropWhile Char.isWhitespace).reverse.dropWhile Char.isWhitespace).reverse

/-- Association-list lookup: first binding of the key, as for a Go map. -/
def lookupL (mp : List (Str × Str)) (k : Str) : Option Str :=
  (mp.find? (fun p => p.1 == k)).map (fun p => p.2)

/-- Go map read with the zero value "" as default, then the empty-string
fallback replacement used at the call sites. -/
def lookupOr (mp : List (Str × Str)) (k : Str) (dflt : Str) : Str :=
  match lookupL mp k with
  | some v => if v = [] then dflt else v
  | none => dflt

/-- commandsMap from domain.go (insertion order as written). -/
def commandsMap : List (Str × Str) :=
  [ ("0002".toList, "external_sensor".toList)
  , ("0004".toList, "zone_name".toList)
  , ("0006".toList, "schedule_sync".toList)
  , ("0008".toList, "relay_heat_demand".toList)
  , ("000A".toList, "zone_info".toList)
  , ("0100".toList, "other_command".toList)
  , ("0418".toList, "device_info".toList)
  , ("1060".toList, "battery_info".toList)
  , ("10A0".toList, "dhw_settings".toList)
  , ("10E0".toList, "heartbeat".toList)
  , ("1260".toList, "dhw_temperature".toList)
  , ("12B0".toList, "window_status".toList)
  , ("1F09".toList, "sync".toList)
  , ("1F41".toList, "dhw_state".toList)
  , ("1FC9".toList, "bind".toList)
  , ("22C9".toList, "setpoint_ufh".toList)
  , ("2309".toList, "setpoint".toList)
  , ("2349".toList, "setpoint_override".toList)
  , ("2E04".toList, "controller_mode".toList)
  , ("30C9".toList, "zone_temperature".toList)
  , ("313F".toList, "date_request".toList)
  , ("3150".toList, "zone_heat_demand".toList)
  , ("3B00".toList, "actuator_check_req".toList)
  , ("3EF0".toList, "actuator_state".toList) ]

/-- deviceTypeMap from domain.go. -/
def deviceTypeMap : List (Str × Str) :=
  [ ("01".toList, "CTL".toList)
  , ("02".toList, "UFH".toList)
  , ("04".toList, "TRV".toList)
  , ("07".toList, "DHW".toList)
  , ("10".toList, "OTB".toList)
  , ("13".toList, "BDR".toList)
  , ("30".toList, "GWAY".toList)
  , ("34".toList, "STAT".toList) ]

/-- Go map assignment m[k] = v on an association list: replace the
existing binding or append a new one. -/
def mapSet (mp : List (Str × Str)) (k v : Str) : List (Str × Str) :=
  if mp.any (fun p => p.1 == k) then
    mp.map (fun p => if p.1 == k then (k, v) else p)
  else mp ++ [(k, v)]

/-- reverseMap from helper.go: iterate the entries of the original map,
writing reverse[v] = k.  The forward command map has pairwise distinct
values, so no write overwrites another and the result does not depend on
the (unspecified) Go map iteration order; the source insertion order is
used here. -/
def reverseMap (originalMap : List (Str × Str)) : List (Str × Str) :=
  originalMap.foldl (fun acc p => mapSet acc p.2 p.1) []

/-- reverseCommandsMap from domain.go. -/
def reverseCommandsMap : List (Str × Str) := reverseMap commandsMap

/-- The Message structure produced by DecodeMessage in
messageProcessor.go. -/
structure Message where
  rawmsg : Str
  messageType : Str
  sourceTypeCode : Str
  sourceType : Str
  sourceID : Str
  destinationTypeCode : Str
  destinationType : Str
  destinationID : Str
  isBroadcast : Bool
  commandCode : Str
  commandType : Str
  payloadLength : Int
  payload : Str
  deriving DecidableEq, Repr

/-- DecodeMessage from messageProcessor.go.  Every fixed-index Go slice
is taken through slice?, so the function returns none exactly when one
of those slices would panic at run time. -/
def decodeMessage (rawmsg : Str) : Option Message := do
  let mtRaw ← slice? rawmsg 4 6
  let messageType := trimSpace mtRaw
  let source ← slice? rawmsg 11 20
  let sourceTypeCode ← slice? source 0 2
  let sourceID ← slice? source 3 source.length
  let sourceType := lookupOr deviceTypeMap sourceTypeCode "NA".toList
  let dest0 ← slice? rawmsg 21 30
  let destination ← if dest0 = "--:------".toList then slice? rawmsg 31 40 else pure dest0
  let destinationTypeCode ← slice? destination 0 2
  let destinationID ← slice? destination 3 destination.length
  let destinationType := lookupOr deviceTypeMap destinationTypeCode "NA".toList
  let isBroadcast := source = destination
  let commandCode ← slice? rawmsg 41 45
  let commandType := lookupOr commandsMap (commandCode.map Char.toUpper) "unknown".toList
  let plStr ← slice? rawmsg 46 49
  let payloadLength := (parseDec plStr).getD 0
  let payload ← slice? rawmsg 50 rawmsg.length
  pure { rawmsg := rawmsg
       , messageType := messageType
       , sourceTypeCode := sourceTypeCode
       , sourceType := sourceType
       , sourceID := sourceID
       , destinationTypeCode := destinationTypeCode
       , destinationType := destinationType
       , destinationID := destinationID
       , isBroadcast := isBroadcast
       , commandCode := commandCode
       , commandType := commandType
       , payloadLength := payloadLength
       , payload := payload }

/-- The ZoneInfo record from domain.go; the Go float64 temperature
fields are carried in the rationals (they only ever hold integer
centi-degree values divided by 100, on which float64 comparison and
rational comparison agree). -/
structure ZoneInfo where
  id : Int
  name : Str
  minTemperature : ℚ
  maxTemperature : ℚ
  temperature : ℚ
  setpoint : ℚ
  heatDemand : ℚ
  deriving DecidableEq, Repr

/-- The Go zero value of ZoneInfo. -/
def zeroZone : ZoneInfo :=
  { id := 0, name := [], minTemperature := 0, maxTemperature := 0
  , temperature := 0, setpoint := 0, heatDemand := 0 }

/-- The zoneNames state: the global map from zone id to zone record
that the processors read and write. -/
def ZoneMap := Int → Option ZoneInfo

/-- The empty map. -/
def emptyZoneMap : ZoneMap := fun _ => none

/-- Go map assignment zoneNames[zoneID] = zoneInfo. -/
def updateZone (m : ZoneMap) (z : Int) (zi : ZoneInfo) : ZoneMap :=
  fun x => if x = z then some zi else m x

/-- One BigQueryMeasurement row as built by the processors.  The three
nullable numeric fields and the nullable zone name are Options (a
NullString or NullFloat64 with Valid = false carries no value); the
InsertedAt wall-clock timestamp is outside the model. -/
structure Measurement where
  messageType : Str
  commandType : Str
  sourceType : Str
  sourceID : Str
  destinationType : Str
  destinationID : Str
  broadcast : Bool
  zoneID : Option Int
  zoneName : Option Str
  demandPercentage : Option ℚ
  temperature : Option ℚ
  setpoint : Option ℚ
  deriving DecidableEq, Repr

/-- The Command structure from domain.go; payload none models a nil
Payload interface, some vs the []int Values of a DefaultPayload. -/
structure Command where
  messageType : Str
  commandName : Str
  broadcast : Bool
  destinationID : Str
  payload : Option (List Int)
  deriving DecidableEq, Repr

/-- Observable outcome of one processor call: the zone map after the
call, the measurement rows inserted, the commands pushed onto the
command queue, and whether the message fell through to the logging-only
ProcessUnknownMessage handler. -/
structure ProcResult where
  zones : ZoneMap
  measurements : List Measurement
  commands : List Command
  fallback : Bool

/-- Decode one (zone id, centi-degree value) block at hex-character
offset i, as the zone-temperature and setpoint loops do: zone id from
payload[i:i+2], value from payload[i+2:i+6], divided by 100. -/
def decodeIdValueBlock (payload : Str) (i : Nat) : Option (Int × ℚ) := do
  let idS ← slice? payload i (i+2)
  let vS ← slice? payload (i+2) (i+6)
  pure (parseHexD0 idS, Rat.divInt (parseHexD0 vS) 100)

/-- The zone record written by a zone-temperature block (lines 496-505
of messageProcessor.go): update the temperature of an existing record,
or create a record with only id and temperature set. -/
def tempNewInfo (m : ZoneMap) (z : Int) (deg : ℚ) : ZoneInfo :=
  match m z with
  | some zo => { zo with temperature := deg }
  | none => { zeroZone with id := z, temperature := deg }

/-- The zone record written by a setpoint block (lines 397-414): if the
record exists and both bounds are known (non-zero), the setpoint is
stored only when strictly inside them; with an unknown bound it is
always stored; a fresh record stores it unconditionally. -/
def spNewInfo (m : ZoneMap) (z : Int) (deg : ℚ) : ZoneInfo :=
  match m z with
  | some zo =>
      if zo.minTemperature ≠ 0 ∧ zo.maxTemperature ≠ 0 then
        if zo.minTemperature < deg ∧ deg < zo.maxTemperature then
          { zo with setpoint := deg }
        else zo
      else { zo with setpoint := deg }
  | none => { zeroZone with id := z, setpoint := deg }

/-- The zone record written by a heat-demand message (lines 578-588). -/
def hdNewInfo (m : ZoneMap) (z : Int) (pct : ℚ) : ZoneInfo :=
  match m z with
  | some zo => { zo with heatDemand := pct }
  | none => { zeroZone with id := z, heatDemand := pct }

/-- The zone record written by a zone-info block (lines 265-275). -/
def ziNewInfo (m : ZoneMap) (z : Int) (mn mx : ℚ) : ZoneInfo :=
  match m z with
  | some zo => { zo with minTemperature := mn, maxTemperature := mx }
  | none => { zeroZone with id := z, minTemperature := mn, maxTemperature := mx }

/-- The measurement row shared by the three emitting processors; the
zone name is valid only when the zone was already known and named. -/
def mkMeasurement (msg : Message) (z : Int) (zi : ZoneInfo) (knownZone : Bool)
    (demand temp sp : Option ℚ) : Measurement :=
  { messageType := msg.messageType
  , commandType := msg.commandType
  , sourceType := msg.sourceType
  , sourceID := msg.sourceID
  , destinationType := msg.destinationType
  , destinationID := msg.destinationID
  , broadcast := msg.isBroadcast
  , zoneID := some z
  , zoneName := if knownZone ∧ zi.name ≠ [] then some zi.name else none
  , demandPercentage := demand
  , temperature := temp
  , setpoint := sp }

/-- Loop body of ProcessZoneTemperatureMessage for one block at offset
i: decode the block, write the record, and emit one measurement when
zoneID >= 12 or the (updated) record has a non-empty name. -/
def zoneTemperatureStep (msg : Message) (m : ZoneMap) (i : Nat) :
    Option (ZoneMap × List Measurement) :=
  (decodeIdValueBlock msg.payload i).map (fun p =>
    let z := p.1
    let deg := p.2
    let zi := tempNewInfo m z deg
    let knownZone := (m z).isSome
    (updateZone m z zi,
     if 12 ≤ z ∨ zi.name ≠ [] then
       [mkMeasurement msg z zi knownZone none (some deg) none]
     else []))

/-- Loop body of ProcessSetpointMessage for one block at offset i.  The
emitted measurement carries the decoded setpoint even when the bounds
check left the stored record unchanged. -/
def setpointStep (msg : Message) (m : ZoneMap) (i : Nat) :
    Option (ZoneMap × List Measurement) :=
  (decodeIdValueBlock msg.payload i).map (fun p =>
    let z := p.1
    let deg := p.2
    let zi := spNewInfo m z deg
    let knownZone := (m z).isSome
    (updateZone m z zi,
     if 12 ≤ z ∨ zi.name ≠ [] then
       [mkMeasurement msg z zi knownZone none none (some deg)]
     else []))

/-- Loop body of ProcessZoneInfoMessage for one 12-hex-character block
at offset i: zone id from payload[i:i+2], min from payload[i+4:i+8],
max from payload[i+8:i+12], each divided by 100; no measurement is
emitted. -/
def zoneInfoStep (msg : Message) (m : ZoneMap) (i : Nat) :
    Option (ZoneMap × List Measurement) := do
  let idS ← slice? msg.payload i (i+2)
  let mnS ← slice? msg.payload (i+4) (i+8)
  let mxS ← slice? msg.payload (i+8) (i+12)
  let z := parseHexD0 idS
  let zi := ziNewInfo m z (Rat.divInt (parseHexD0 mnS) 100) (Rat.divInt (parseHexD0 mxS) 100)
  pure (updateZone m z zi, [])

/-- Index sequence of the Go loop for i := 0; i < bound; i += step
(step positive). -/
def blockStarts (bound step : Nat) : List Nat :=
  (List.range ((bound + step - 1) / step)).map (fun k => k * step)

/-- Run the loop body over the block offsets, threading the zone map
and collecting the emitted measurements in order; none propagates a
panic from any iteration. -/
def runBlocks (step : ZoneMap → Nat → Option (ZoneMap × List Measurement)) :
    ZoneMap → List Nat → Option (ZoneMap × List Measurement)
  | m, [] => some (m, [])
  | m, i :: rest => do
      let p ← step m i
      let q ← runBlocks step p.1 rest
      pure (q.1, p.2 ++ q.2)

/-- ProcessZoneTemperatureMessage from messageProcessor.go: controller
source, not a request, declared payload length a multiple of 3; the
loop walks 6 hex characters (3 bytes) per block over 2*payloadLength
hex characters. -/
def processZoneTemperatureMessage (msg : Message) (m : ZoneMap) : Option ProcResult :=
  if msg.sourceType = "CTL".toList ∧ msg.messageType ≠ "RQ".toList ∧ msg.payloadLength % 3 = 0 then
    (runBlocks (zoneTemperatureStep msg) m (blockStarts (2 * msg.payloadLength).toNat 6)).map
      (fun p => { zones := p.1, measurements := p.2, commands := [], fallback := false })
  else some { zones := m, measurements := [], commands := [], fallback := true }

/-- ProcessSetpointMessage from messageProcessor.go: same guard and
block layout as zone temperature. -/
def processSetpointMessage (msg : Message) (m : ZoneMap) : Option ProcResult :=
  if msg.sourceType = "CTL".toList ∧ msg.messageType ≠ "RQ".toList ∧ msg.payloadLength % 3 = 0 then
    (runBlocks (setpointStep msg) m (blockStarts (2 * msg.payloadLength).toNat 6)).map
      (fun p => { zones := p.1, measurements := p.2, commands := [], fallback := false })
  else some { zones := m, measurements := [], commands := [], fallback := true }

/-- ProcessZoneInfoMessage from messageProcessor.go: the guard admits
any declared payload length that is a multiple of 3, while the loop
steps 12 hex characters (6 bytes) per block over 2*payloadLength hex
characters. -/
def processZoneInfoMessage (msg : Message) (m : ZoneMap) : Option ProcResult :=
  if msg.sourceType = "CTL".toList ∧ msg.messageType ≠ "RQ".toList ∧ msg.payloadLength % 3 = 0 then
    (runBlocks (zoneInfoStep msg) m (blockStarts (2 * msg.payloadLength).toNat 12)).map
      (fun p => { zones := p.1, measurements := p.2, commands := [], fallback := false })
  else some { zones := m, measurements := [], commands := [], fallback := true }

/-- Decode of the two heat-demand payload bytes: zone id from
payload[0:2], raw demand from payload[2:4], percentage raw/200*100
(written as the single exact quotient raw*100/200). -/
def hdDecode (payload : Str) : Option (Int × ℚ) := do
  let idS ← slice? payload 0 2
  let dS ← slice? payload 2 4
  pure (parseHexD0 idS, Rat.divInt (parseHexD0 dS * 100) 200)

/-- processHeatDemandMessage from messageProcessor.go, shared by the
zone and relay heat-demand handlers: guarded only by a declared payload
length of exactly 2 bytes. -/
def processHeatDemandMessage (msg : Message) (m : ZoneMap) : Option ProcResult :=
  if msg.payloadLength = 2 then
    (hdDecode msg.payload).map (fun p =>
      let z := p.1
      let pct := p.2
      let zi := hdNewInfo m z pct
      let knownZone := (m z).isSome
      { zones := updateZone m z zi
      , measurements :=
          if 12 ≤ z ∨ zi.name ≠ [] then
            [mkMeasurement msg z zi knownZone (some pct) none none]
          else []
      , commands := []
      , fallback := false })
  else some { zones := m, measurements := [], commands := [], fallback := true }

/-- encoding/hex DecodeString: pairs of hex digits to bytes; none on an
odd-length input or a non-hex character. -/
def hexDecodeStr : Str → Option (List Nat)
  | [] => some []
  | [_] => none
  | a :: b :: rest => do
      let hi ← hexDigit? a
      let lo ← hexDigit? b
      let tail ← hexDecodeStr rest
      pure ((hi * 16 + lo) :: tail)

/-- The cleanup the zone-name handler applies to the decoded bytes:
interpret each byte as a character, keep only ASCII letters and spaces
(the regex [^a-zA-Z ]+ replaced by nothing; multi-byte UTF-8 sequences
never decode to ASCII letters, so filtering the raw bytes agrees with
filtering the decoded string), then trim. -/
def cleanZoneName (bytes : List Nat) : Str :=
  trimSpace ((bytes.map Char.ofNat).filter (fun c =>
    ('a' ≤ c && c ≤ 'z') || ('A' ≤ c && c ≤ 'Z') || c == ' '))

/-- ProcessZoneNameMessage from messageProcessor.go: controller
Response with declared payload length 22; zone id from payload[0:2],
name from hex-decoding payload[4:].  On a hex-decode failure one repair
zone_name request is queued for that zone and the map is untouched; a
successful decode stores the cleaned name when it is non-empty. -/
def processZoneNameMessage (evohomeID : Str) (msg : Message) (m : ZoneMap) :
    Option ProcResult :=
  if msg.sourceType = "CTL".toList ∧ msg.messageType = "RP".toList ∧ msg.payloadLength = 22 then do
    let idS ← slice? msg.payload 0 2
    let nameS ← slice? msg.payload 4 msg.payload.length
    let zoneID := parseHexD0 idS
    match hexDecodeStr nameS with
    | some bytes =>
        let zoneNameString := cleanZoneName bytes
        if zoneNameString ≠ [] then
          let zi := match m zoneID with
            | some zo => { zo with name := zoneNameString }
            | none => { zeroZone with id := zoneID, name := zoneNameString }
          pure { zones := updateZone m zoneID zi, measurements := [], commands := [], fallback := false }
        else
          pure { zones := m, measurements := [], commands := [], fallback := false }
    | none =>
        pure { zones := m, measurements := []
             , commands := [ { messageType := "RQ".toList
                             , commandName := "zone_name".toList
                             , broadcast := false
                             , destinationID := evohomeID
                             , payload := some [zoneID, 0] } ]
             , fallback := false }
  else some { zones := m, measurements := [], commands := [], fallback := true }

/-- Uppercase hex digits of a natural number (most significant first),
as fmt %X prints it. -/
def hexUpper (n : Nat) : Str := (Nat.toDigits 16 n).map Char.toUpper

/-- Left-pad with zeros to the given width, as a zero-padded fmt width
flag does. -/
def padZero (w : Nat) (s : Str) : Str := List.replicate (w - s.length) '0' ++ s

/-- fmt.Sprintf("%02X", v): two-digit zero-padded uppercase hex; a
negative value prints its sign followed by the magnitude padded to the
remaining width. -/
def hex2 (v : Int) : Str :=
  if v < 0 then '-' :: padZero 1 (hexUpper (-v).toNat) else padZero 2 (hexUpper v.toNat)

/-- fmt.Sprintf("%03d", n) for the non-negative payload length. -/
def pad3 (n : Nat) : Str := padZero 3 (Nat.toDigits 10 n)

/-- DefaultPayload.GetPayloadHex from domain.go: an empty Values slice
is replaced by [0], then each value is appended as %02X. -/
def getPayloadHex (values : List Int) : Str :=
  let vs := if values = [] then [(0 : Int)] else values
  vs.foldl (fun payload v => payload ++ hex2 v) []

/-- The wire line built by SendCommand in messageProcessor.go (the
serial write and settle delay are outside the model): the command code
comes from reverseCommandsMap, the source is the fixed pseudo-address
18:730, a broadcast collapses the destination onto the source and moves
the null slot, and the payload length is half the hex-string length. -/
def sendCommandString (command : Command) : Str :=
  let messageType := command.messageType
  let commandCode := (lookupL reverseCommandsMap command.commandName).getD []
  let source := "18:730".toList
  let destination := if command.broadcast then source else command.destinationID
  let payload := getPayloadHex (command.payload.getD [])
  let payloadLength := payload.length / 2
  if command.broadcast then
    messageType ++ " --- ".toList ++ source ++ " --:------ ".toList ++ destination
      ++ " ".toList ++ commandCode ++ " ".toList ++ pad3 payloadLength ++ " ".toList ++ payload
  else
    messageType ++ " --- ".toList ++ source ++ " ".toList ++ destination
      ++ " --:------ ".toList ++ commandCode ++ " ".toList ++ pad3 payloadLength ++ " ".toList ++ payload

/-- The truncated deviation computed by applyJitterWithPercentage in
helper.go: int(float64(input) * float64(percentage) / 100), i.e. the
exact product divided by 100 and truncated toward zero (exact for every
product below 2^53, far beyond the intervals used). -/
def deviationOf (input percentage : Int) : Int := Int.tdiv (input * percentage) 100

/-- applyJitterWithPercentage from helper.go, with the value drawn by
rand.Intn supplied as the draw argument (rand.Intn n promises a value
in [0, n) and panics when its bound n = 2*deviation is not positive;
none models that panic). -/
def applyJitterWithPercentage (input percentage draw : Int) : Option Int :=
  let deviation := deviationOf input percentage
  if 2 * deviation ≤ 0 then none
  else some (input - deviation + draw)

/-- applyJitter from helper.go: jitter with a fixed 25 percent. -/
def applyJitter (input draw : Int) : Option Int :=
  applyJitterWithPercentage input 25 draw

/-- A controller Response message of the given command with the given
declared payload length and payload, as DecodeMessage produces it from
a line such as 045 RP --- 01:160371 18:010057 --:------ 30C9 003 003A98. -/
def mkCtlRp (commandCode commandType : Str) (payloadLength : Int) (payload : Str) : Message :=
  { rawmsg := []
  , messageType := "RP".toList
  , sourceTypeCode := "01".toList
  , sourceType := "CTL".toList
  , sourceID := "160371".toList
  , destinationTypeCode := "18".toList
  , destinationType := "NA".toList
  , destinationID := "010057".toList
  , isBroadcast := false
  , commandCode := commandCode
  , commandType := commandType
  , payloadLength := payloadLength
  , payload := payload }

/-- A zone-temperature Message carrying the single block 003A98
(zone 0, temperature 0x3A98 = 15000 centi-degrees = 150.00). -/
def msgAboveCeiling : Message :=
  mkCtlRp "30C9".toList "zone_temperature".toList 3 "003A98".toList

/-- A zone map in which zone 0 already has temperature 20.5. -/
def mapAboveCeiling : ZoneMap :=
  updateZone emptyZoneMap 0 { zeroZone with id := 0, temperature := Rat.divInt 2050 100 }

/-- A zone-info Message with controller source, Response type and a
declared payload length of 3 bytes (a multiple of 3 but not of 6), with
its 6 hex characters of payload. -/
def msgZoneInfoLen3 : Message :=
  mkCtlRp "000A".toList "zone_info".toList 3 "001001".toList

/-- A zone-temperature Message carrying the single block 000802
(zone 0, temperature 20.50). -/
def msgGateZone0 : Message :=
  mkCtlRp "30C9".toList "zone_temperature".toList 3 "000802".toList

/-- A Message whose payload starts with the block 0D0802 (zone 13,
value 20.50) and whose declared payload length is 2, so that the same
payload also parses as the heat-demand pair (zone 13, raw 8). -/
def msgGate13 : Message :=
  mkCtlRp "30C9".toList "zone_temperature".toList 2 "0D0802".toList

/-- A grammar-conforming line of exactly 49 characters: the regular
expression requires nothing beyond index 48, and no payload separator
or payload follows the length field. -/
def line49 : Str := "045 RP --- 01:160371 18:010057 --:------ 0004 002".toList

/-- A grammar-conforming line of 52 characters including a payload. -/
def line52 : Str := "045 RP --- 01:160371 18:010057 --:------ 0004 001 00".toList

/-- The zone_name request the program sends: RQ to the controller with
payload bytes (zone, 0). -/
def cmdReparse : Command :=
  { messageType := "RQ".toList
  , commandName := "zone_name".toList
  , broadcast := false
  , destinationID := "01:160371".toList
  , payload := some [0, 0] }

/-- A zone map in which zone 0 has known bounds min 5.0 and max 35.0. -/
def mapBounds : ZoneMap :=
  updateZone emptyZoneMap 0
    { zeroZone with id := 0, minTemperature := 5, maxTemperature := 35 }

/-- A setpoint Message carrying the single block 000FA0 (zone 0,
setpoint 0x0FA0 = 4000 centi-degrees = 40.00). -/
def msgSp40 : Message :=
  mkCtlRp "2309".toList "setpoint".toList 3 "000FA0".toList

/-- A setpoint Message carrying the single block 0007D0 (zone 0,
setpoint 0x07D0 = 2000 centi-degrees = 20.00). -/
def msgSp20 : Message :=
  mkCtlRp "2309".toList "setpoint".toList 3 "0007D0".toList

/-- A zone-name Response for zone 6 whose name hex payload[4:] = XYZ
does not hex-decode (odd length, non-hex characters). -/
def msgZoneNameBad : Message :=
  mkCtlRp "0004".toList "zone_name".toList 22 "0600XYZ".toList

/-- A heat-demand Message with the 2-byte payload 00C8: zone 0,
raw demand 0xC8 = 200. -/
def msgHeatDemand : Message :=
  mkCtlRp "3150".toList "zone_heat_demand".toList 2 "00C8".toList

section Lemmas

theorem slice?_eq_some (s : Str) (a b : Nat) (h1 : a ≤ b) (h2 : b ≤ s.length) :
    slice? s a b = some ((s.drop a).take (b - a)) := by
  unfold slice?
  exact if_pos ⟨h1, h2⟩

theorem length_drop_take (s : Str) (a n : Nat) (h : a + n ≤ s.length) :
    ((s.drop a).take n).length = n := by
  simp only [List.length_take, List.length_drop]
  omega

theorem divInt_mul_100_200 (d : Int) : Rat.divInt (d * 100) 200 = (d : ℚ) / 200 * 100 := by
  rw [Rat.divInt_eq_div]
  push_cast
  ring

end Lemmas

/-- C1: the sanity ceiling is not enforced.  A decoded zone temperature
of 150.00 (payload block 003A98, strictly above the 100-degree ceiling)
is stored into the zone record, overwriting the prior value 20.5, even
though the handler logs a warning whose text and the adjacent source
comment promise to stop processing.  The claim (and the comment in the
code) say the value is rejected and the prior value retained; the code
stores it. -/
theorem zoneTemperature_above_ceiling_is_stored :
    (processZoneTemperatureMessage msgAboveCeiling mapAboveCeiling).map
        (fun r => ((r.zones 0).map ZoneInfo.temperature, r.fallback))
      = some (some 150, false)
    ∧ ((100 : ℚ) < 150) := by
  constructor
  · decide
  · norm_num

/-- C6: the zone-info guard tests payloadLength % 3 == 0 although the
loop consumes 6-byte (12 hex character) blocks, as the comment in the
code states.  A controller Response zone-info message with declared
payload length 3 therefore passes the guard instead of routing to the
fallback handler, and the block read payload[4:8] overruns the 6-hex-
character payload: the processor panics (modelled as none) rather than
falling back as the claim requires for lengths that are not multiples
of 6. -/
theorem zone_info_len3_guard_panics :
    (processZoneInfoMessage msgZoneInfoLen3 emptyZoneMap).isSome = false
    ∧ msgZoneInfoLen3.payloadLength % 3 = 0
    ∧ ¬ msgZoneInfoLen3.payloadLength % 6 = 0 := by
  refine ⟨by decide, by decide, by decide⟩

/-- C9: the reverse command map is the exact inverse of the forward
command map: looking a command name up in reverseCommandsMap returns
its code, and looking that code up in commandsMap returns the name
again, for every entry of the forward map (whose value set is exactly
its image). -/
theorem reverse_commands_map_inverse :
    (∀ p ∈ commandsMap, lookupL reverseCommandsMap p.2 = some p.1)
    ∧ (∀ p ∈ commandsMap, (lookupL reverseCommandsMap p.2).bind (lookupL commandsMap) = some p.2) := by
  constructor
  · decide
  · decide

/-- C2 is false as stated: for a decoded zone-temperature block with
zone id 0 (which satisfies the claimed emission condition id < 12) and
no previously known name, the processor updates the zone record but
emits no measurement: the gate in the code is id >= 12 or a non-empty
name, not id < 12 or a non-empty name. -/
theorem zone0_unnamed_block_emits_nothing :
    (processZoneTemperatureMessage msgGateZone0 emptyZoneMap).map
        (fun r => (r.measurements.length, r.fallback, (r.zones 0).map ZoneInfo.temperature))
      = some (0, false, some (Rat.divInt 2050 100))
    ∧ ((0 : Int) < 12) :=
  ⟨by decide, by decide⟩

/-- C2 amended: in zone-temperature, setpoint and heat-demand
processing, a measurement row is emitted for a decoded block if and
only if the block's zone id is at least 12 or the (updated) zone record
carries a non-empty name; a block failing this gate still writes the
zone record but emits nothing. -/
theorem emission_gate_characterisation (msg : Message) (m : ZoneMap) (i : Nat)
    (z : Int) (d : ℚ) (hdec : decodeIdValueBlock msg.payload i = some (z, d)) :
    (∀ p, zoneTemperatureStep msg m i = some p →
        ((p.2 ≠ []) ↔ (12 ≤ z ∨ (tempNewInfo m z d).name ≠ []))
        ∧ p.1 z = some (tempNewInfo m z d))
    ∧ (∀ p, setpointStep msg m i = some p →
        ((p.2 ≠ []) ↔ (12 ≤ z ∨ (spNewInfo m z d).name ≠ []))
        ∧ p.1 z = some (spNewInfo m z d))
    ∧ (∀ zh dh r, hdDecode msg.payload = some (zh, dh) → msg.payloadLength = 2 →
        processHeatDemandMessage msg m = some r →
        ((r.measurements ≠ []) ↔ (12 ≤ zh ∨ (hdNewInfo m zh dh).name ≠ []))
        ∧ r.zones zh = some (hdNewInfo m zh dh)) := by
  refine ⟨?_, ?_, ?_⟩
  · intro p hp
    unfold zoneTemperatureStep at hp
    rw [hdec] at hp
    simp only [Option.map_some', Option.some_inj] at hp
    subst hp
    constructor
    · by_cases hg : 12 ≤ z ∨ (tempNewInfo m z d).name ≠ [] <;> simp [hg]
    · simp [updateZone]
  · intro p hp
    unfold setpointStep at hp
    rw [hdec] at hp
    simp only [Option.map_some', Option.some_inj] at hp
    subst hp
    constructor
    · by_cases hg : 12 ≤ z ∨ (spNewInfo m z d).name ≠ [] <;> simp [hg]
    · simp [updateZone]
  · intro zh dh r hhd hlen hr
    unfold processHeatDemandMessage at hr
    rw [if_pos hlen, hhd] at hr
    simp only [Option.map_some', Option.some_inj] at hr
    subst hr
    constructor
    · by_cases hg : 12 ≤ zh ∨ (hdNewInfo m zh dh).name ≠ [] <;> simp [hg]
    · simp [updateZone]

/-- Witness for the emission gate: the block 0D0802 of msgGate13
(zone 13, so the gate passes on the id alone) instantiates all three
conjuncts; in particular the same message satisfies the heat-demand
guard since its declared payload length is 2. -/
theorem emission_gate_characterisation_witness :
    (∀ p, zoneTemperatureStep msgGate13 emptyZoneMap 0 = some p →
        ((p.2 ≠ []) ↔ ((12 : Int) ≤ 13 ∨ (tempNewInfo emptyZoneMap 13 (Rat.divInt 2050 100)).name ≠ []))
        ∧ p.1 13 = some (tempNewInfo emptyZoneMap 13 (Rat.divInt 2050 100)))
    ∧ (∀ p, setpointStep msgGate13 emptyZoneMap 0 = some p →
        ((p.2 ≠ []) ↔ ((12 : Int) ≤ 13 ∨ (spNewInfo emptyZoneMap 13 (Rat.divInt 2050 100)).name ≠ []))
        ∧ p.1 13 = some (spNewInfo emptyZoneMap 13 (Rat.divInt 2050 100)))
    ∧ (∀ zh dh r, hdDecode msgGate13.payload = some (zh, dh) → msgGate13.payloadLength = 2 →
        processHeatDemandMessage msgGate13 emptyZoneMap = some r →
        ((r.measurements ≠ []) ↔ (12 ≤ zh ∨ (hdNewInfo emptyZoneMap zh dh).name ≠ []))
        ∧ r.zones zh = some (hdNewInfo emptyZoneMap zh dh)) :=
  emission_gate_characterisation msgGate13 emptyZoneMap 0 13 (Rat.divInt 2050 100) (by decide)

/-- C5: setpoint bounds gating.  The setpoint block writes spNewInfo
into the map; when the zone record exists and both bounds are known
(non-zero), the decoded setpoint is stored exactly when it lies
strictly between them and the prior setpoint is retained otherwise;
when a bound is still zero, or the record does not exist yet, the
decoded setpoint is always stored. -/
theorem setpoint_bounds_gating (msg : Message) (m : ZoneMap) (i : Nat)
    (z : Int) (d : ℚ) (hdec : decodeIdValueBlock msg.payload i = some (z, d)) :
    (∀ p, setpointStep msg m i = some p → p.1 z = some (spNewInfo m z d))
    ∧ (∀ zo, m z = some zo → zo.minTemperature ≠ 0 → zo.maxTemperature ≠ 0 →
        (spNewInfo m z d).setpoint
          = if zo.minTemperature < d ∧ d < zo.maxTemperature then d else zo.setpoint)
    ∧ (∀ zo, m z = some zo → (zo.minTemperature = 0 ∨ zo.maxTemperature = 0) →
        (spNewInfo m z d).setpoint = d)
    ∧ (m z = none → (spNewInfo m z d).setpoint = d) := by
  refine ⟨?_, ?_, ?_, ?_⟩
  · intro p hp
    unfold setpointStep at hp
    rw [hdec] at hp
    simp only [Option.map_some', Option.some_inj] at hp
    subst hp
    simp [updateZone]
  · intro zo hm h1 h2
    simp only [spNewInfo, hm]
    rw [if_pos (And.intro h1 h2)]
    by_cases hio : zo.minTemperature < d ∧ d < zo.maxTemperature
    · rw [if_pos hio, if_pos hio]
    · rw [if_neg hio, if_neg hio]
  · intro zo hm hz
    have hne : ¬ (zo.minTemperature ≠ 0 ∧ zo.maxTemperature ≠ 0) := by tauto
    simp only [spNewInfo, hm]
    rw [if_neg hne]
  · intro hm
    simp only [spNewInfo, hm]

/-- Witness for the setpoint bounds gating at the claimed scenario:
zone 0 with known bounds min 5.0 and max 35.0 and a decoded setpoint of
40.00 (rejected, prior value retained) and of 20.00 (accepted). -/
theorem setpoint_bounds_gating_witness :
    ((∀ p, setpointStep msgSp40 mapBounds 0 = some p → p.1 0 = some (spNewInfo mapBounds 0 (Rat.divInt 4000 100)))
      ∧ (∀ zo, mapBounds 0 = some zo → zo.minTemperature ≠ 0 → zo.maxTemperature ≠ 0 →
          (spNewInfo mapBounds 0 (Rat.divInt 4000 100)).setpoint
            = if zo.minTemperature < Rat.divInt 4000 100 ∧ Rat.divInt 4000 100 < zo.maxTemperature then
                Rat.divInt 4000 100 else zo.setpoint)
      ∧ (∀ zo, mapBounds 0 = some zo → (zo.minTemperature = 0 ∨ zo.maxTemperature = 0) →
          (spNewInfo mapBounds 0 (Rat.divInt 4000 100)).setpoint = Rat.divInt 4000 100)
      ∧ (mapBounds 0 = none → (spNewInfo mapBounds 0 (Rat.divInt 4000 100)).setpoint = Rat.divInt 4000 100))
    ∧ (spNewInfo mapBounds 0 (Rat.divInt 4000 100)).setpoint = 0
    ∧ (spNewInfo mapBounds 0 (Rat.divInt 2000 100)).setpoint = 20
    ∧ (spNewInfo emptyZoneMap 0 (Rat.divInt 4000 100)).setpoint = 40 :=
  ⟨setpoint_bounds_gating msgSp40 mapBounds 0 0 (Rat.divInt 4000 100) (by decide),
   by decide, by decide, by decide⟩

/-- C7: zone-name repair.  For a controller Response zone-name message
with declared payload length 22 whose name hex payload[4:] fails to
decode, the handler queues exactly one RQ zone_name repair command
carrying that zone id and leaves the zone map untouched; on a
successful decode no command is queued. -/
theorem zone_name_hex_failure_repair (eid : Str) (msg : Message) (m : ZoneMap)
    (h1 : msg.sourceType = "CTL".toList) (h2 : msg.messageType = "RP".toList)
    (h3 : msg.payloadLength = 22) (h4 : 4 ≤ msg.payload.length) :
    (hexDecodeStr (msg.payload.drop 4) = none →
      processZoneNameMessage eid msg m
        = some { zones := m, measurements := []
               , commands := [ { messageType := "RQ".toList
                               , commandName := "zone_name".toList
                               , broadcast := false
                               , destinationID := eid
                               , payload := some [parseHexD0 (msg.payload.take 2), 0] } ]
               , fallback := false })
    ∧ (∀ bs, hexDecodeStr (msg.payload.drop 4) = some bs →
        ∃ r, processZoneNameMessage eid msg m = some r
          ∧ r.commands = [] ∧ r.fallback = false) := by
  have e1 : slice? msg.payload 0 2 = some (msg.payload.take 2) := by
    rw [slice?_eq_some msg.payload 0 2 (by omega) (by omega)]
    simp
  have e2 : slice? msg.payload 4 msg.payload.length = some (msg.payload.drop 4) := by
    rw [slice?_eq_some msg.payload 4 msg.payload.length (by omega) (le_refl _)]
    congr 1
    exact List.take_of_length_le (by simp)
  constructor
  · intro hn
    unfold processZoneNameMessage
    rw [if_pos (And.intro h1 (And.intro h2 h3))]
    rw [e1]
    simp only [Option.bind_eq_bind, Option.some_bind]
    rw [e2]
    simp only [Option.bind_eq_bind, Option.some_bind]
    simp only [hn]
    rfl
  · intro bs hb
    unfold processZoneNameMessage
    rw [if_pos (And.intro h1 (And.intro h2 h3))]
    rw [e1]
    simp only [Option.bind_eq_bind, Option.some_bind]
    rw [e2]
    simp only [Option.bind_eq_bind, Option.some_bind]
    simp only [hb]
    by_cases hc : cleanZoneName bs ≠ []
    · rw [if_pos hc]
      exact ⟨_, rfl, rfl, rfl⟩
    · rw [if_neg hc]
      exact ⟨_, rfl, rfl, rfl⟩

/-- Witness for the zone-name repair: msgZoneNameBad has the
undecodable name hex XYZ for zone 6, so exactly the repair command
(RQ zone_name, payload values 6 and 0) is queued and the empty map is
returned unchanged. -/
theorem zone_name_hex_failure_repair_witness :
    (hexDecodeStr (msgZoneNameBad.payload.drop 4) = none →
      processZoneNameMessage "01:160371".toList msgZoneNameBad emptyZoneMap
        = some { zones := emptyZoneMap, measurements := []
               , commands := [ { messageType := "RQ".toList
                               , commandName := "zone_name".toList
                               , broadcast := false
                               , destinationID := "01:160371".toList
                               , payload := some [parseHexD0 (msgZoneNameBad.payload.take 2), 0] } ]
               , fallback := false })
    ∧ (∀ bs, hexDecodeStr (msgZoneNameBad.payload.drop 4) = some bs →
        ∃ r, processZoneNameMessage "01:160371".toList msgZoneNameBad emptyZoneMap = some r
          ∧ r.commands = [] ∧ r.fallback = false) :=
  zone_name_hex_failure_repair "01:160371".toList msgZoneNameBad emptyZoneMap
    (by decide) (by decide) (by decide) (by decide)

/-- C8: for any heat-demand message with declared payload length 2 (the
zone and relay variants share this handler), the stored heat demand of
the decoded zone and the demand percentage of every emitted measurement
equal raw/200*100 where raw is the second payload byte. -/
theorem heat_demand_percentage (msg : Message) (m : ZoneMap)
    (hlen : msg.payloadLength = 2) (hp : 4 ≤ msg.payload.length) :
    ∃ r, processHeatDemandMessage msg m = some r ∧ r.fallback = false
      ∧ (r.zones (parseHexD0 (msg.payload.take 2))).map ZoneInfo.heatDemand
          = some ((parseHexD0 ((msg.payload.drop 2).take 2) : ℚ) / 200 * 100)
      ∧ ∀ meas ∈ r.measurements,
          meas.demandPercentage
            = some ((parseHexD0 ((msg.payload.drop 2).take 2) : ℚ) / 200 * 100) := by
  have e1 : slice? msg.payload 0 2 = some (msg.payload.take 2) := by
    rw [slice?_eq_some msg.payload 0 2 (by omega) (by omega)]
    simp
  have e2 : slice? msg.payload 2 4 = some ((msg.payload.drop 2).take 2) :=
    slice?_eq_some msg.payload 2 4 (by omega) (by omega)
  have hval : Rat.divInt (parseHexD0 ((msg.payload.drop 2).take 2) * 100) 200
      = (parseHexD0 ((msg.payload.drop 2).take 2) : ℚ) / 200 * 100 :=
    divInt_mul_100_200 _
  unfold processHeatDemandMessage hdDecode
  rw [if_pos hlen, e1]
  simp only [Option.bind_eq_bind, Option.some_bind]
  rw [e2]
  simp only [Option.bind_eq_bind, Option.some_bind, Option.map_some']
  refine ⟨_, rfl, rfl, ?_, ?_⟩
  · simp only [updateZone, if_pos rfl]
    rw [← hval]
    unfold hdNewInfo
    cases m (parseHexD0 (msg.payload.take 2)) <;> rfl
  · intro meas hmeas
    by_cases hg : 12 ≤ parseHexD0 (msg.payload.take 2)
        ∨ (hdNewInfo m (parseHexD0 (msg.payload.take 2))
            (Rat.divInt (parseHexD0 ((msg.payload.drop 2).take 2) * 100) 200)).name ≠ []
    · simp only [if_pos hg, List.mem_singleton] at hmeas
      subst hmeas
      simp only [mkMeasurement, hval]
    · simp only [if_neg hg, List.not_mem_nil] at hmeas

/-- Witness for the heat-demand percentage: payload 00C8 (zone 0, raw
200) stores a demand of 200/200*100, that is 100.0. -/
theorem heat_demand_percentage_witness :
    (∃ r, processHeatDemandMessage msgHeatDemand emptyZoneMap = some r
      ∧ r.fallback = false
      ∧ (r.zones (parseHexD0 (msgHeatDemand.payload.take 2))).map ZoneInfo.heatDemand
          = some ((parseHexD0 ((msgHeatDemand.payload.drop 2).take 2) : ℚ) / 200 * 100)
      ∧ ∀ meas ∈ r.measurements,
          meas.demandPercentage
            = some ((parseHexD0 ((msgHeatDemand.payload.drop 2).take 2) : ℚ) / 200 * 100))
    ∧ ((parseHexD0 ((msgHeatDemand.payload.drop 2).take 2) : ℚ) / 200 * 100 = 100) :=
  ⟨heat_demand_percentage msgHeatDemand emptyZoneMap (by decide) (by decide),
   by
    have h200 : parseHexD0 ((msgHeatDemand.payload.drop 2).take 2) = 200 := by decide
    rw [h200]
    norm_num⟩

/-- C10: whenever the truncated deviation is at least 1 and the random
draw lies in [0, 2*deviation) as rand.Intn guarantees, the jittered
value lies in the half-open band [input - deviation, input + deviation);
and whenever the truncated deviation is 0 (in particular for applyJitter
on any input in [0, 4)) the rand.Intn bound 2*deviation is not positive
and the function panics instead of returning. -/
theorem jitter_band_and_nontotal (input percentage draw : Int)
    (hdev : 1 ≤ deviationOf input percentage) (hd0 : 0 ≤ draw)
    (hd1 : draw < 2 * deviationOf input percentage) :
    (applyJitterWithPercentage input percentage draw
        = some (input - deviationOf input percentage + draw)
      ∧ input - deviationOf input percentage
          ≤ input - deviationOf input percentage + draw
      ∧ input - deviationOf input percentage + draw
          < input + deviationOf input percentage)
    ∧ (∀ j k : Int, deviationOf j 25 = 0 → applyJitter j k = none)
    ∧ (∀ j k : Int, 0 ≤ j → j < 4 → applyJitter j k = none) := by
  have hz : ∀ j k : Int, deviationOf j 25 = 0 → applyJitter j k = none := by
    intro j k h
    simp only [applyJitter, applyJitterWithPercentage, h]
    norm_num
  refine ⟨⟨?_, by omega, by omega⟩, hz, ?_⟩
  · unfold applyJitterWithPercentage
    rw [if_neg (by omega)]
  · intro j k h0 h4
    interval_cases j <;> exact hz _ k (by decide)

/-- Witness for the jitter band at input 100, percentage 25 and draw 0:
the deviation is 25 and the output 75 lies in [75, 125). -/
theorem jitter_band_and_nontotal_witness :
    (applyJitterWithPercentage 100 25 0 = some (100 - deviationOf 100 25 + 0)
      ∧ 100 - deviationOf 100 25 ≤ 100 - deviationOf 100 25 + 0
      ∧ 100 - deviationOf 100 25 + 0 < 100 + deviationOf 100 25)
    ∧ (∀ j k : Int, deviationOf j 25 = 0 → applyJitter j k = none)
    ∧ (∀ j k : Int, 0 ≤ j → j < 4 → applyJitter j k = none) :=
  jitter_band_and_nontotal 100 25 0 (by decide) (by decide) (by decide)

/-- C3 is false as stated: line49 is accepted by IsValidMessage (the
regular expression constrains nothing beyond index 48) yet DecodeMessage
fails on it, because the payload slice rawmsg[50:] is out of range on a
49-character line. -/
theorem valid_line49_decode_fails :
    isValidMessage line49 = true ∧ line49.length = 49 ∧ decodeMessage line49 = none :=
  ⟨by decide, by decide, by decide⟩

/-- C3 amended: on every line accepted by IsValidMessage that is at
least 50 characters long, DecodeMessage succeeds (every fixed-index
slice it takes is in range) and is deterministic: any equal line
decodes to the same Message. -/
theorem decode_total_on_valid_lines (s : Str)
    (_hv : isValidMessage s = true) (hl : 50 ≤ s.length) :
    ∃ msg, decodeMessage s = some msg ∧ ∀ t : Str, t = s → decodeMessage t = some msg := by
  have hex : ∃ msg, decodeMessage s = some msg := by
    unfold decodeMessage
    have e1 : slice? s 4 6 = some ((s.drop 4).take 2) :=
      slice?_eq_some s 4 6 (by omega) (by omega)
    have e2 : slice? s 11 20 = some ((s.drop 11).take 9) :=
      slice?_eq_some s 11 20 (by omega) (by omega)
    have l2 : ((s.drop 11).take 9).length = 9 := length_drop_take s 11 9 (by omega)
    have e3 : slice? ((s.drop 11).take 9) 0 2
        = some ((((s.drop 11).take 9).drop 0).take 2) :=
      slice?_eq_some _ 0 2 (by omega) (by omega)
    have e4 : slice? ((s.drop 11).take 9) 3 ((s.drop 11).take 9).length
        = some ((((s.drop 11).take 9).drop 3).take (((s.drop 11).take 9).length - 3)) :=
      slice?_eq_some _ 3 _ (by omega) (le_refl _)
    have e5 : slice? s 21 30 = some ((s.drop 21).take 9) :=
      slice?_eq_some s 21 30 (by omega) (by omega)
    have l5 : ((s.drop 21).take 9).length = 9 := length_drop_take s 21 9 (by omega)
    have e6 : slice? s 31 40 = some ((s.drop 31).take 9) :=
      slice?_eq_some s 31 40 (by omega) (by omega)
    have l6 : ((s.drop 31).take 9).length = 9 := length_drop_take s 31 9 (by omega)
    have e7 : slice? ((s.drop 31).take 9) 0 2
        = some ((((s.drop 31).take 9).drop 0).take 2) :=
      slice?_eq_some _ 0 2 (by omega) (by omega)
    have e8 : slice? ((s.drop 31).take 9) 3 ((s.drop 31).take 9).length
        = some ((((s.drop 31).take 9).drop 3).take (((s.drop 31).take 9).length - 3)) :=
      slice?_eq_some _ 3 _ (by omega) (le_refl _)
    have e7x : slice? ((s.drop 21).take 9) 0 2
        = some ((((s.drop 21).take 9).drop 0).take 2) :=
      slice?_eq_some _ 0 2 (by omega) (by omega)
    have e8x : slice? ((s.drop 21).take 9) 3 ((s.drop 21).take 9).length
        = some ((((s.drop 21).take 9).drop 3).take (((s.drop 21).take 9).length - 3)) :=
      slice?_eq_some _ 3 _ (by omega) (le_refl _)
    have e9 : slice? s 41 45 = some ((s.drop 41).take 4) :=
      slice?_eq_some s 41 45 (by omega) (by omega)
    have e10 : slice? s 46 49 = some ((s.drop 46).take 3) :=
      slice?_eq_some s 46 49 (by omega) (by omega)
    have e11 : slice? s 50 s.length = some ((s.drop 50).take (s.length - 50)) :=
      slice?_eq_some s 50 s.length (by omega) (le_refl _)
    rw [e1]
    simp only [Option.bind_eq_bind, Option.some_bind]
    rw [e2]
    simp only [Option.bind_eq_bind, Option.some_bind]
    rw [e3]
    simp only [Option.bind_eq_bind, Option.some_bind]
    rw [e4]
    simp only [Option.bind_eq_bind, Option.some_bind]
    rw [e5]
    simp only [Option.bind_eq_bind, Option.some_bind]
    by_cases hd : (s.drop 21).take 9 = "--:------".toList
    · rw [if_pos hd, e6]
      simp only [Option.bind_eq_bind, Option.some_bind]
      rw [e7]
      simp only [Option.bind_eq_bind, Option.some_bind]
      rw [e8]
      simp only [Option.bind_eq_bind, Option.some_bind]
      rw [e9]
      simp only [Option.bind_eq_bind, Option.some_bind]
      rw [e10]
      simp only [Option.bind_eq_bind, Option.some_bind]
      rw [e11]
      simp only [Option.bind_eq_bind, Option.some_bind]
      exact ⟨_, rfl⟩
    · rw [if_neg hd]
      simp only [Option.pure_def, Option.bind_eq_bind, Option.some_bind]
      rw [e7x]
      simp only [Option.bind_eq_bind, Option.some_bind]
      rw [e8x]
      simp only [Option.bind_eq_bind, Option.some_bind]
      rw [e9]
      simp only [Option.bind_eq_bind, Option.some_bind]
      rw [e10]
      simp only [Option.bind_eq_bind, Option.some_bind]
      rw [e11]
      simp only [Option.bind_eq_bind, Option.some_bind]
      exact ⟨_, rfl⟩
  obtain ⟨msg, hmsg⟩ := hex
  exact ⟨msg, hmsg, fun t ht => ht ▸ hmsg⟩

/-- Witness for decode totality on the 52-character accepted line52. -/
theorem decode_total_on_valid_lines_witness :
    ∃ msg, decodeMessage line52 = some msg
      ∧ ∀ t : Str, t = line52 → decodeMessage t = some msg :=
  decode_total_on_valid_lines line52 (by decide) (by decide)

/-- A string whose first character is not a decimal digit fails the
validity test at its first positional check. -/
theorem isValidMessage_false_of_head (s : Str) (h : isDigitCh (chAt s 0) = false) :
    isValidMessage s = false := by
  unfold isValidMessage
  rw [h]
  rfl

/-- C4 is false as stated: the line SendCommand renders for the catalog
command zone_name (message type RQ, directed at the controller) is
rejected by IsValidMessage, so re-parsing it cannot succeed. -/
theorem sendCommand_zone_name_reparse_fails :
    isValidMessage (sendCommandString cmdReparse) = false
    ∧ (lookupL reverseCommandsMap cmdReparse.commandName).isSome = true :=
  ⟨by decide, by decide⟩

/-- C4 amended: re-parsing a SendCommand line always fails.  For every
command whose message type is one of the four grammar message types
(in particular for every catalog command the program sends, all of
which use RQ), in both the broadcast and the directed layout and for
any destination and payload, the rendered line starts with the message
type instead of the three-digit counter the grammar demands (and its
fixed source address 18:730 is shorter than the address grammar), so
IsValidMessage rejects it. -/
theorem sendCommand_output_never_reparses (command : Command)
    (hmt : command.messageType ∈ [" I".toList, " W".toList, "RQ".toList, "RP".toList]) :
    isValidMessage (sendCommandString command) = false := by
  apply isValidMessage_false_of_head
  simp only [List.mem_cons, List.not_mem_nil, or_false] at hmt
  rcases hmt with hmt | hmt | hmt | hmt <;>
    cases hb : command.broadcast <;>
      simp [sendCommandString, hb, hmt, chAt, isDigitCh]

/-- Witness for the never-reparses theorem at the zone_name request. -/
theorem sendCommand_output_never_reparses_witness :
    isValidMessage (sendCommandString cmdReparse) = false :=
  sendCommand_output_never_reparses cmdReparse (by decide)
